import Mathlib

/-!
Verification of the grade-calculation engine ("Calculadora de Médias") of the
Lusia Studio backend.  Every definition is a shallow embedding of a function in
`app/api/http/services/grades_service.py` or
`app/api/http/services/assignments_service.py`; Python `Decimal` arithmetic is
modelled by exact rational arithmetic on `ℚ`, nullable columns by `Option`, and
`HTTPException` by an explicit error value.
-/

namespace Lusia

/-- Embeds `_dec`: convert a nullable numeric value to `Decimal`; `None` becomes `0`. -/
def dec (v : Option ℚ) : ℚ := v.getD 0

/-- Embeds `_round_half_up`: `value.quantize(Decimal("1"), rounding=ROUND_HALF_UP)`,
which rounds to the nearest integer with ties away from zero. -/
def roundHalfUp (x : ℚ) : ℤ :=
  if 0 ≤ x then ⌊x + 1 / 2⌋ else -⌊-x + 1 / 2⌋

/-- Embeds `_truncate_one_decimal`: `Decimal(math.floor(value * 10)) / 10`
(the final `float` conversion is exact for the one-decimal values produced here). -/
def truncateOneDecimal (x : ℚ) : ℚ := (⌊x * 10⌋ : ℚ) / 10

/-- Embeds the Python built-in `round(x)` with no digits argument:
round half to even (banker's rounding). -/
def pyRoundEven (x : ℚ) : ℤ :=
  let n := ⌊x⌋
  let f := x - n
  if f < 1 / 2 then n
  else if 1 / 2 < f then n + 1
  else if n % 2 = 0 then n else n + 1

/-- Embeds Python `round(x, 2)`: round half to even at two decimal places. -/
def pyRound2 (x : ℚ) : ℚ := (pyRoundEven (x * 100) : ℚ) / 100

/-- C8: `_round_half_up` rounds half away from zero to the nearest integer and never
banker's-rounds: `roundHalfUp 9.5 = 10`, `roundHalfUp 9.49999 = 9`,
`roundHalfUp (-0.5) = -1`; in general the result is within `1/2` of the input, and at
every half-integer tie it moves away from zero (never toward the even neighbour). -/
theorem C8_round_half_up :
    roundHalfUp (19 / 2) = 10 ∧
    roundHalfUp (949999 / 100000) = 9 ∧
    roundHalfUp (-(1 / 2)) = -1 ∧
    (∀ m : ℕ, roundHalfUp ((m : ℚ) + 1 / 2) = (m : ℤ) + 1 ∧
      roundHalfUp (-((m : ℚ) + 1 / 2)) = -((m : ℤ) + 1)) ∧
    (∀ x : ℚ, |(roundHalfUp x : ℚ) - x| ≤ 1 / 2) := by
  refine ⟨by norm_num [roundHalfUp], by norm_num [roundHalfUp], by norm_num [roundHalfUp],
    ?_, ?_⟩
  · intro m
    constructor
    · have h0 : (0 : ℚ) ≤ (m : ℚ) + 1 / 2 := by positivity
      have he : ((m : ℚ) + 1 / 2) + 1 / 2 = ((m + 1 : ℤ) : ℚ) := by push_cast; ring
      unfold roundHalfUp
      rw [if_pos h0, he, Int.floor_intCast]
    · have h0 : ¬ (0 : ℚ) ≤ -((m : ℚ) + 1 / 2) := by
        push_neg
        have : (0 : ℚ) < (m : ℚ) + 1 / 2 := by positivity
        linarith
      have he : -(-((m : ℚ) + 1 / 2)) + 1 / 2 = ((m + 1 : ℤ) : ℚ) := by push_cast; ring
      unfold roundHalfUp
      rw [if_neg h0, he, Int.floor_intCast]
  · intro x
    unfold roundHalfUp
    split
    · have h1 : ((⌊x + 1 / 2⌋ : ℚ)) ≤ x + 1 / 2 := Int.floor_le _
      have h2 : x + 1 / 2 < (⌊x + 1 / 2⌋ : ℚ) + 1 := Int.lt_floor_add_one _
      rw [abs_le]
      constructor <;> linarith
    · have h1 : ((⌊-x + 1 / 2⌋ : ℚ)) ≤ -x + 1 / 2 := Int.floor_le _
      have h2 : -x + 1 / 2 < (⌊-x + 1 / 2⌋ : ℚ) + 1 := Int.lt_floor_add_one _
      rw [abs_le]
      push_cast
      constructor <;> linarith

/-- Embeds the secondary exam-weight selection in `get_cfs_dashboard` (the
`if exam_grade_raw is not None` branch of the non-básico case): post-2023 cohorts
always weight the exam 25; legacy cohorts weight it 25 for biennial subjects and 30
otherwise.  `if cohort_year and cohort_year >= 2023` uses Python truthiness, so a
cohort of `0` also falls to the legacy rule. -/
def selectSecondaryExamWeight (cohort_year : Option ℤ) (duration_years : ℕ) : ℚ :=
  match cohort_year with
  | some y => if y ≠ 0 ∧ 2023 ≤ y then 25 else if duration_years = 2 then 25 else 30
  | none => if duration_years = 2 then 25 else 30

/-- Embeds `_compute_cfd`: blends the CIF with the raw 0-200 exam score
(`CE = exam_grade_raw / 10`); without an exam score or weight the CFD is the CIF. -/
def computeCfd (cif_grade : ℤ) (exam_grade_raw : Option ℤ) (exam_weight : Option ℚ) :
    ℚ × ℤ :=
  match exam_grade_raw, exam_weight with
  | some raw, some w =>
    let ce : ℚ := (raw : ℚ) / 10
    let internal_weight : ℚ := 100 - w
    let cfd_raw : ℚ := ((cif_grade : ℤ) : ℚ) * internal_weight + ce * w
    ((cfd_raw) / 100, roundHalfUp (cfd_raw / 100))
  | _, _ => (((cif_grade : ℤ) : ℚ), cif_grade)

/-- Embeds the secondary (non-`basico_3_ciclo`) CFD branch of `get_cfs_dashboard`:
weight selection happens only when an exam score is present, then `_compute_cfd` runs. -/
def secondaryCfd (cohort_year : Option ℤ) (duration_years : ℕ) (cif_grade : ℤ)
    (exam_grade_raw : Option ℤ) : ℚ × ℤ :=
  match exam_grade_raw with
  | some raw =>
    computeCfd cif_grade (some raw) (some (selectSecondaryExamWeight cohort_year duration_years))
  | none => computeCfd cif_grade none none

/-- C1: for secondary subjects with an exam score, the exam weight is 25 for cohorts
from 2023 on and, for earlier cohorts, 25 for two-year subjects and 30 otherwise;
`CE = exam_grade_raw / 10` unrounded, `cfd_raw = (cif·(100-w) + CE·w)/100`,
`cfd_grade = roundHalfUp cfd_raw`.  The 2022-cohort example gives weight 30 and
CFD 14.6 → 15; the 2024-cohort example gives weight 25 and CFD 14.5 → 15. -/
theorem C1_cfd_regime_selection :
    (∀ (y : ℤ) (d : ℕ), 2023 ≤ y → selectSecondaryExamWeight (some y) d = 25) ∧
    (∀ (y : ℤ) (d : ℕ), y < 2023 →
      selectSecondaryExamWeight (some y) d = if d = 2 then 25 else 30) ∧
    (∀ (cif raw : ℤ) (w : ℚ),
      computeCfd cif (some raw) (some w) =
        (((cif : ℚ) * (100 - w) + ((raw : ℚ) / 10) * w) / 100,
          roundHalfUp (((cif : ℚ) * (100 - w) + ((raw : ℚ) / 10) * w) / 100))) ∧
    selectSecondaryExamWeight (some 2022) 3 = 30 ∧
    secondaryCfd (some 2022) 3 14 (some 160) = (73 / 5, 15) ∧
    selectSecondaryExamWeight (some 2024) 3 = 25 ∧
    secondaryCfd (some 2024) 3 14 (some 160) = (29 / 2, 15) := by
  refine ⟨?_, ?_, ?_, by decide, ?_, by decide, ?_⟩
  · intro y d hy
    have hne : y ≠ 0 := by omega
    simp [selectSecondaryExamWeight, hne, hy]
  · intro y d hy
    have : ¬ (y ≠ 0 ∧ 2023 ≤ y) := by omega
    simp [selectSecondaryExamWeight, this]
  · intro cif raw w
    rfl
  · show secondaryCfd (some 2022) 3 14 (some 160) = (73 / 5, 15)
    unfold secondaryCfd computeCfd selectSecondaryExamWeight roundHalfUp
    norm_num
  · show secondaryCfd (some 2024) 3 14 (some 160) = (29 / 2, 15)
    unfold secondaryCfd computeCfd selectSecondaryExamWeight roundHalfUp
    norm_num

/-- Witness for C1: the post-2023 rule applied at cohort 2025, duration 3. -/
theorem C1_cfd_regime_selection_witness :
    selectSecondaryExamWeight (some 2025) 3 = 25 :=
  C1_cfd_regime_selection.1 2025 3 (by norm_num)

/-- The slice of a dashboard CFD record that `_compute_cfs_value` reads. -/
structure CfsCfd where
  cfd_grade : ℤ
  duration_years : ℕ
  affects_cfs : Bool
deriving DecidableEq

/-- Embeds `_compute_cfs_value`: filter to CFDs affecting the CFS; from cohort 2025 on a
duration-weighted mean, otherwise a simple mean; the raw value is truncated to one
decimal and the DGES value is `round(cfs_value * 10)`.  Zero eligible CFDs (or a zero
duration sum in the weighted branch) yield `(none, none)`. -/
def computeCfsValue (cfds : List CfsCfd) (cohort_year : Option ℤ) :
    Option ℚ × Option ℤ :=
  let eligible := cfds.filter (fun c => c.affects_cfs)
  if eligible.isEmpty then (none, none)
  else
    let use_weighted : Bool := match cohort_year with
      | some y => decide (2025 ≤ y)
      | none => false
    if use_weighted then
      let denominator : ℚ := (eligible.map (fun c => (c.duration_years : ℚ))).sum
      if denominator = 0 then (none, none)
      else
        let numerator : ℚ :=
          (eligible.map (fun c => (c.cfd_grade : ℚ) * (c.duration_years : ℚ))).sum
        let cfs_value := truncateOneDecimal (numerator / denominator)
        (some cfs_value, some (pyRoundEven (cfs_value * 10)))
    else
      let cfs_raw : ℚ := (eligible.map (fun c => (c.cfd_grade : ℚ))).sum / (eligible.length : ℚ)
      let cfs_value := truncateOneDecimal cfs_raw
      (some cfs_value, some (pyRoundEven (cfs_value * 10)))

/-- C2's `computeCFS`, written from the claim's own words (no zero-denominator guard):
eligible = CFDs with `affects_cfs`; cohort ≥ 2025 takes the duration-weighted mean,
otherwise the simple mean; truncate to one decimal; DGES = round(value × 10);
`(null, null)` for zero eligible CFDs. -/
def claimComputeCFS (cfds : List CfsCfd) (cohort_year : Option ℤ) :
    Option ℚ × Option ℤ :=
  let eligible := cfds.filter (fun c => c.affects_cfs)
  if eligible.isEmpty then (none, none)
  else
    let cfs_raw : ℚ :=
      if (match cohort_year with | some y => decide (2025 ≤ y) | none => false) then
        (eligible.map (fun c => (c.cfd_grade : ℚ) * (c.duration_years : ℚ))).sum /
          (eligible.map (fun c => (c.duration_years : ℚ))).sum
      else
        (eligible.map (fun c => (c.cfd_grade : ℚ))).sum / (eligible.length : ℚ)
    let cfs_value := truncateOneDecimal cfs_raw
    (some cfs_value, some (pyRoundEven (cfs_value * 10)))

/-- C2: as long as every eligible CFD records a positive duration (it is the number of
enrolment years, so at least 1), `_compute_cfs_value` behaves exactly as the claim
states; moreover truncation never rounds up: 14.68 truncates to 14.6. -/
theorem C2_compute_cfs :
    (∀ (cfds : List CfsCfd) (cohort_year : Option ℤ),
      (∀ c ∈ cfds.filter (fun c => c.affects_cfs), 1 ≤ c.duration_years) →
      computeCfsValue cfds cohort_year = claimComputeCFS cfds cohort_year) ∧
    truncateOneDecimal (1468 / 100) = 73 / 5 := by
  constructor
  · intro cfds cohort_year hdur
    unfold computeCfsValue claimComputeCFS
    set eligible := cfds.filter (fun c => c.affects_cfs) with helig
    by_cases hempty : eligible.isEmpty
    · simp [hempty]
    · have hne : eligible ≠ [] := by
        intro h
        rw [h] at hempty
        exact hempty rfl
      have hpos : (0 : ℚ) < (eligible.map (fun c => (c.duration_years : ℚ))).sum := by
        apply List.sum_pos
        · intro x hx
          obtain ⟨c, hc, rfl⟩ := List.mem_map.mp hx
          have h1 : 1 ≤ c.duration_years := hdur c (helig ▸ hc)
          exact_mod_cast Nat.lt_of_lt_of_le Nat.zero_lt_one h1
        · intro h
          exact hne (List.map_eq_nil_iff.mp h)
      have hdenom : ((eligible.map (fun c => (c.duration_years : ℚ))).sum = 0) = False := by
        simp only [eq_iff_iff, iff_false]
        exact ne_of_gt hpos
      simp only [hempty, if_false, hdenom]
      cases hw : (match cohort_year with
        | some y => decide (2025 ≤ y)
        | none => false) <;> simp [hw]
  · norm_num [truncateOneDecimal]

/-- Witness for C2 at the spec's own example: cohort 2026 with CFDs (16, 3 years) and
(12, 1 year). -/
theorem C2_compute_cfs_witness :
    computeCfsValue [⟨16, 3, true⟩, ⟨12, 1, true⟩] (some 2026) =
      claimComputeCFS [⟨16, 3, true⟩, ⟨12, 1, true⟩] (some 2026) :=
  C2_compute_cfs.1 [⟨16, 3, true⟩, ⟨12, 1, true⟩] (some 2026) (by decide)

/-- The slice of a `student_subject_periods` row that `_try_recalculate_annual` reads. -/
structure PeriodGradeRow where
  period_number : ℕ
  pauta_grade : Option ℤ
deriving DecidableEq

/-- A `student_annual_subject_grades` row as written by `_try_recalculate_annual`. -/
structure AnnualRow where
  raw_annual : ℚ
  annual_grade : ℤ
deriving DecidableEq

/-- One step of the annual accumulation loop in `_try_recalculate_annual`:
`idx = period_number - 1`; periods whose index falls outside the weight list are
skipped. -/
def annualStep (weights : List ℚ) (acc : ℚ) (p : PeriodGradeRow) : ℚ :=
  let idx := p.period_number - 1
  if h : idx < weights.length then
    acc + ((p.pauta_grade.getD 0 : ℤ) : ℚ) * weights[idx] / 100
  else acc

/-- Embeds `_try_recalculate_annual`.  The result doubles as the stored
`AnnualSubjectGrade` after the call: `none` means the existing row (if any) was deleted
and nothing is returned; `some` is the row upserted over `existing` (the computed value
never depends on `existing` — update and insert write the same data). -/
def tryRecalculateAnnual (weights : List ℚ) (periods : List PeriodGradeRow)
    (_existing : Option AnnualRow) : Option AnnualRow :=
  if periods.all (fun p => p.pauta_grade.isSome) then
    let raw_annual : ℚ := periods.foldl (annualStep weights) 0
    some ⟨raw_annual, roundHalfUp raw_annual⟩
  else
    -- not all periods graded: the existing annual grade is deleted
    none

/-- The period list of an enrollment whose periods are numbered `k+1, k+2, …` and all
carry pauta grades, as created by `create_settings` (period numbers are 1-based and
consecutive). -/
def positionalPeriodsFrom (k : ℕ) : List ℤ → List PeriodGradeRow
  | [] => []
  | g :: gs => ⟨k + 1, some g⟩ :: positionalPeriodsFrom (k + 1) gs

def positionalPeriods (grades : List ℤ) : List PeriodGradeRow :=
  positionalPeriodsFrom 0 grades

/-- The claim's annual formula: the positionally-matched weighted sum
`Σ pauta_grade[i] × weight[i] / 100`. -/
def claimAnnualRaw (weights : List ℚ) (grades : List ℤ) : ℚ :=
  ((grades.zip weights).map (fun gw => ((gw.1 : ℤ) : ℚ) * gw.2 / 100)).sum

theorem positionalPeriodsFrom_all_some (k : ℕ) (gs : List ℤ) :
    (positionalPeriodsFrom k gs).all (fun p => p.pauta_grade.isSome) = true := by
  induction gs generalizing k with
  | nil => rfl
  | cons g gs ih => simp [positionalPeriodsFrom, ih]

theorem annualStep_mk (weights : List ℚ) (acc : ℚ) (k : ℕ) (g : ℤ) :
    annualStep weights acc ⟨k + 1, some g⟩ =
      if h : k < weights.length then acc + ((g : ℤ) : ℚ) * weights[k] / 100 else acc := by
  unfold annualStep
  norm_num

theorem annualRaw_fold_eq (weights : List ℚ) (gs : List ℤ) :
    ∀ (k : ℕ) (acc : ℚ),
      (positionalPeriodsFrom k gs).foldl (annualStep weights) acc
        = acc + ((gs.zip (weights.drop k)).map (fun gw => ((gw.1 : ℤ) : ℚ) * gw.2 / 100)).sum := by
  induction gs with
  | nil => intro k acc; simp [positionalPeriodsFrom]
  | cons g gs ih =>
    intro k acc
    rw [positionalPeriodsFrom, List.foldl_cons, annualStep_mk]
    by_cases hk : k < weights.length
    · have hdrop : weights.drop k = weights[k] :: weights.drop (k + 1) :=
        List.drop_eq_getElem_cons hk
      rw [dif_pos hk, ih (k + 1) _, hdrop, List.zip_cons_cons, List.map_cons, List.sum_cons]
      ring
    · have hdrop : weights.drop k = [] := List.drop_eq_nil_of_le (by omega)
      have hdrop' : weights.drop (k + 1) = [] := List.drop_eq_nil_of_le (by omega)
      rw [dif_neg hk, ih (k + 1) acc, hdrop, hdrop', List.zip_nil_right, List.zip_nil_right]

/-- C3: if any period lacks a pauta grade the annual grade is deleted and nothing is
returned, whatever was stored before; with consecutive 1-based fully-graded periods the
upserted row is `Σ pauta_grade[i] × weight[i] / 100` rounded half-up, independent of any
existing row; weights [30, 30, 40] with grades 14, 16, 15 give annual grade 15 whether a
row existed or not. -/
theorem C3_annual_recalculation :
    (∀ (weights : List ℚ) (periods : List PeriodGradeRow) (existing : Option AnnualRow),
      (∃ p ∈ periods, p.pauta_grade = none) →
      tryRecalculateAnnual weights periods existing = none) ∧
    (∀ (weights : List ℚ) (grades : List ℤ) (existing : Option AnnualRow),
      tryRecalculateAnnual weights (positionalPeriods grades) existing =
        some ⟨claimAnnualRaw weights grades, roundHalfUp (claimAnnualRaw weights grades)⟩) ∧
    tryRecalculateAnnual [30, 30, 40] (positionalPeriods [14, 16, 15]) (some ⟨0, 0⟩) =
      some ⟨15, 15⟩ ∧
    tryRecalculateAnnual [30, 30, 40] (positionalPeriods [14, 16, 15]) none =
      some ⟨15, 15⟩ := by
  refine ⟨?_, ?_, ?_, ?_⟩
  · intro weights periods existing ⟨p, hp, hnone⟩
    unfold tryRecalculateAnnual
    rw [if_neg]
    intro hall
    have := List.all_eq_true.mp hall p hp
    rw [hnone] at this
    exact absurd this (by simp)
  · intro weights grades existing
    unfold tryRecalculateAnnual positionalPeriods
    rw [if_pos (positionalPeriodsFrom_all_some 0 grades)]
    have h := annualRaw_fold_eq weights grades 0 0
    rw [List.drop_zero] at h
    rw [h, zero_add, claimAnnualRaw]
  · have h := annualRaw_fold_eq [30, 30, 40] [14, 16, 15] 0 0
    unfold tryRecalculateAnnual positionalPeriods
    rw [if_pos (positionalPeriodsFrom_all_some 0 [14, 16, 15])]
    rw [List.drop_zero] at h
    rw [h]
    norm_num [roundHalfUp]
  · have h := annualRaw_fold_eq [30, 30, 40] [14, 16, 15] 0 0
    unfold tryRecalculateAnnual positionalPeriods
    rw [if_pos (positionalPeriodsFrom_all_some 0 [14, 16, 15])]
    rw [List.drop_zero] at h
    rw [h]
    norm_num [roundHalfUp]

/-- Witness for C3: an enrollment whose second period has no pauta grade loses its
annual grade. -/
theorem C3_annual_recalculation_witness :
    tryRecalculateAnnual [30, 30, 40] [⟨1, some 14⟩, ⟨2, none⟩, ⟨3, some 15⟩]
      (some ⟨15, 15⟩) = none :=
  C3_annual_recalculation.1 [30, 30, 40] [⟨1, some 14⟩, ⟨2, none⟩, ⟨3, some 15⟩]
    (some ⟨15, 15⟩) ⟨⟨2, none⟩, by decide, rfl⟩

/-- A `subject_evaluation_elements` row as read by `recalculate_period_grade`. -/
structure EvalElement where
  weight_percentage : ℚ
  raw_grade : Option ℚ
deriving DecidableEq

/-- The slice of a `student_subject_periods` row that `recalculate_period_grade`
reads and writes. -/
structure PeriodState where
  raw_calculated : Option ℚ
  calculated_grade : Option ℤ
  pauta_grade : Option ℤ
  is_overridden : Bool
  enrollment_id : Option String
deriving DecidableEq

/-- Embeds `recalculate_period_grade` for a period whose row exists.  Returns the
updated period row together with whether `_try_recalculate_annual` was invoked: the
no-element and no-graded-element branches clear the calculated fields and return
before the cascade; the main branch cascades when `period.get("enrollment_id")` is
truthy (a non-empty id string). -/
def recalculatePeriodGrade (elements : List EvalElement) (p : PeriodState) :
    PeriodState × Bool :=
  if elements.isEmpty then
    ({ p with raw_calculated := none, calculated_grade := none }, false)
  else
    let graded := elements.filter (fun e => e.raw_grade.isSome)
    if graded.isEmpty then
      ({ p with raw_calculated := none, calculated_grade := none }, false)
    else
      let raw_calculated : ℚ :=
        (graded.map (fun e => dec e.raw_grade * e.weight_percentage / 100)).sum
      let calculated_grade := roundHalfUp raw_calculated
      ({ p with
          raw_calculated := some raw_calculated,
          calculated_grade := some calculated_grade,
          pauta_grade := if p.is_overridden then p.pauta_grade else some calculated_grade },
        p.enrollment_id.any (fun s => !s.isEmpty))

theorem graded_sum_eq_filterMap (elements : List EvalElement) :
    ((elements.filter (fun e => e.raw_grade.isSome)).map
        (fun e => dec e.raw_grade * e.weight_percentage / 100)).sum =
      (elements.filterMap
        (fun e => e.raw_grade.map (fun g => g * e.weight_percentage / 100))).sum := by
  induction elements with
  | nil => rfl
  | cons e es ih =>
    simp only [dec] at ih ⊢
    cases hg : e.raw_grade with
    | none => simp [List.filter_cons, List.filterMap_cons, hg, ih]
    | some g => simp [List.filter_cons, List.filterMap_cons, hg, ih]

/-- C4: with no elements, or none graded, the calculated fields are cleared to null
(pauta untouched); otherwise the raw grade is `Σ raw_grade × weight / 100` over just the
graded elements — the ungraded weights are dropped, not renormalized — rounded half-up
into `calculated_grade`, and `pauta_grade` follows it exactly when the period is not
overridden.  The concrete pair (50% graded at 10, 50% ungraded) shows the missing
weight lowers the result to 5 instead of renormalizing to 10. -/
theorem C4_period_recalculation :
    (∀ (p : PeriodState),
      (recalculatePeriodGrade [] p).1 =
        { p with raw_calculated := none, calculated_grade := none }) ∧
    (∀ (elements : List EvalElement) (p : PeriodState),
      elements ≠ [] → (∀ e ∈ elements, e.raw_grade = none) →
      (recalculatePeriodGrade elements p).1 =
        { p with raw_calculated := none, calculated_grade := none }) ∧
    (∀ (elements : List EvalElement) (p : PeriodState),
      (∃ e ∈ elements, e.raw_grade.isSome) →
      (recalculatePeriodGrade elements p).1 =
        { p with
            raw_calculated := some ((elements.filterMap
              (fun e => e.raw_grade.map (fun g => g * e.weight_percentage / 100))).sum),
            calculated_grade := some (roundHalfUp ((elements.filterMap
              (fun e => e.raw_grade.map (fun g => g * e.weight_percentage / 100))).sum)),
            pauta_grade := if p.is_overridden then p.pauta_grade
              else some (roundHalfUp ((elements.filterMap
                (fun e => e.raw_grade.map (fun g => g * e.weight_percentage / 100))).sum)) }) ∧
    (recalculatePeriodGrade [⟨50, some 10⟩, ⟨50, none⟩]
        ⟨none, none, none, false, some "e1"⟩).1.raw_calculated = some 5 := by
  refine ⟨?_, ?_, ?_, ?_⟩
  · intro p
    rfl
  · intro elements p hne hnone
    unfold recalculatePeriodGrade
    rw [if_neg (by simpa using hne)]
    have hfilter : elements.filter (fun e => e.raw_grade.isSome) = [] := by
      rw [List.filter_eq_nil_iff]
      intro e he
      rw [hnone e he]
      simp
    rw [hfilter]
    rfl
  · intro elements p ⟨e, he, hsome⟩
    unfold recalculatePeriodGrade
    have hne : ¬ elements.isEmpty := by
      cases elements with
      | nil => cases he
      | cons a as => simp
    have hfne : ¬ (elements.filter (fun e => e.raw_grade.isSome)).isEmpty := by
      rw [List.isEmpty_iff]
      intro h
      have := List.filter_eq_nil_iff.mp h e he
      rw [hsome] at this
      exact this rfl
    rw [if_neg hne, if_neg hfne, graded_sum_eq_filterMap]
  · norm_num [recalculatePeriodGrade, List.filter, dec]

/-- Witness for C4: a period with one graded element (12 at weight 100) gets
raw 12, grade 12, and pauta 12 since it is not overridden. -/
theorem C4_period_recalculation_witness :
    (recalculatePeriodGrade [⟨100, some 12⟩] ⟨none, none, none, false, some "e1"⟩).1 =
      { raw_calculated := some ((([⟨100, some 12⟩] : List EvalElement).filterMap
          (fun e => e.raw_grade.map (fun g => g * e.weight_percentage / 100))).sum),
        calculated_grade := some (roundHalfUp ((([⟨100, some 12⟩] : List EvalElement).filterMap
          (fun e => e.raw_grade.map (fun g => g * e.weight_percentage / 100))).sum)),
        pauta_grade := if (false : Bool) then none
          else some (roundHalfUp ((([⟨100, some 12⟩] : List EvalElement).filterMap
            (fun e => e.raw_grade.map (fun g => g * e.weight_percentage / 100))).sum)),
        is_overridden := false,
        enrollment_id := some "e1" } :=
  C4_period_recalculation.2.2.1 [⟨100, some 12⟩] ⟨none, none, none, false, some "e1"⟩
    ⟨⟨100, some 12⟩, by norm_num, rfl⟩

/-- C5 is refuted: an invocation of `recalculate_period_grade` on a period with no
evaluation elements does not trigger the annual recalculation — the no-element branch
returns first (the flag is the cascade indicator of the embedding). -/
theorem C5_cascade_counterexample :
    (recalculatePeriodGrade [] ⟨none, none, some 12, false, some "e1"⟩).2 = false := rfl

/-- C5 amended: the period-grade recalculation triggers the annual recalculation for
the parent enrollment exactly when at least one element carries a raw grade and the
period row carries an enrollment id — the no-element and no-graded-element branches
return after clearing, without cascading.  When it does fire, the cascade reaches only
`_try_recalculate_annual` (one level up), which itself touches nothing further. -/
theorem C5_cascade_trigger_amended :
    ∀ (elements : List EvalElement) (p : PeriodState),
      (recalculatePeriodGrade elements p).2 = true ↔
        (elements.filter (fun e => e.raw_grade.isSome) ≠ [] ∧
          p.enrollment_id.any (fun s => !s.isEmpty) = true) := by
  intro elements p
  unfold recalculatePeriodGrade
  by_cases hne : elements.isEmpty
  · have : elements = [] := List.isEmpty_iff.mp hne
    subst this
    simp
  · rw [if_neg hne]
    by_cases hf : (elements.filter (fun e => e.raw_grade.isSome)).isEmpty
    · rw [if_pos hf]
      have : elements.filter (fun e => e.raw_grade.isSome) = [] := List.isEmpty_iff.mp hf
      simp [this]
    · rw [if_neg hf]
      have : elements.filter (fun e => e.raw_grade.isSome) ≠ [] := by
        intro h
        rw [h] at hf
        exact hf rfl
      simp [this]

/-- An `HTTPException` as raised by the services: status code and detail message
(dynamic interpolations in a detail are modelled by the static message text). -/
structure HttpError where
  status : ℕ
  detail : String
deriving DecidableEq

/-- The slice of a `student_subject_cfd` row touched by the exam/finalization paths. -/
structure CfdRow where
  cif_grade : ℤ
  exam_grade : Option ℤ
  exam_grade_raw : Option ℤ
  is_finalized : Bool
deriving DecidableEq

/-- Embeds `update_exam_grade`: a finalized CFD raises before anything is written;
otherwise the raw 0-200 score and its half-up rounded 0-20 form are stored. -/
def updateExamGrade (cfd : CfdRow) (exam_grade_raw : ℤ) : Except HttpError CfdRow :=
  if cfd.is_finalized then
    .error ⟨400, "CFD is already finalized"⟩
  else
    .ok { cfd with
      exam_grade := some (roundHalfUp ((exam_grade_raw : ℚ) / 10)),
      exam_grade_raw := some exam_grade_raw }

/-- The stored CFD row after `update_exam_grade`: the update statement only runs on the
success path, so an error leaves the row as it was. -/
def updateExamGradeStored (cfd : CfdRow) (exam_grade_raw : ℤ) : CfdRow :=
  match updateExamGrade cfd exam_grade_raw with
  | .ok r => r
  | .error _ => cfd

/-- Embeds the per-CFD persistence step of `get_cfs_dashboard`'s refresh pass:
a stored unfinalized CFD is overwritten with the recomputed values, a missing CFD is
inserted unfinalized, and a finalized CFD is returned exactly as stored, with no write.
The boolean records whether storage was written. -/
def dashboardPersistCfd (existing : Option CfdRow) (computed : CfdRow) : CfdRow × Bool :=
  match existing with
  | some e =>
    if !e.is_finalized then ({ computed with is_finalized := e.is_finalized }, true)
    else (e, false)
  | none => ({ computed with is_finalized := false }, true)

/-- Embeds the final loop of `create_cfs_snapshot`: every contributing CFD is marked
finalized. -/
def snapshotFinalizeCfds (cfds : List CfdRow) : List CfdRow :=
  cfds.map (fun c => { c with is_finalized := true })

/-- The settings row slice used by the snapshot/dashboard cohort logic. -/
structure SettingsRow where
  graduation_cohort_year : Option ℤ
deriving DecidableEq

/-- Outcome of `create_cfs_snapshot`: an `HTTPException`, an uncaught Python
`TypeError`, or success with the recorded formula and the finalized CFDs. -/
inductive SnapshotOutcome where
  | httpError (status : ℕ) (detail : String)
  | typeError
  | ok (formula : String) (finalized : List CfdRow)
deriving DecidableEq

/-- Embeds the control flow of `create_cfs_snapshot` after the dashboard recompute:
missing settings and a null computed CFS raise 400s; then
`settings.get("graduation_cohort_year", 2025)` is compared with 2025 — the key is
always present in a settings row, so the default never applies and a SQL NULL reaches
the comparison as `None`, where `None >= 2025` raises `TypeError`. -/
def createCfsSnapshot (settings : Option SettingsRow) (cfds : List CfdRow)
    (computed_cfs : Option ℚ) : SnapshotOutcome :=
  match settings with
  | none => .httpError 400 "No grade settings found"
  | some s =>
    match computed_cfs with
    | none => .httpError 400 "Cannot compute CFS — missing CFDs"
    | some _ =>
      match s.graduation_cohort_year with
      | none => .typeError
      | some y =>
        .ok (if 2025 ≤ y then "weighted_mean" else "simple_mean")
          (snapshotFinalizeCfds cfds)

/-- C6 is refuted on the error kind: updating the exam grade of a finalized CFD raises
an HTTP 400 error, while the conflict kind of this codebase and of the spec's taxonomy
carries 409 (`create_settings` raises 409 for the settings-already-exist conflict) —
so the failure is not a ConflictError. -/
theorem C6_finalized_conflict_counterexample :
    updateExamGrade ⟨14, none, none, true⟩ 150 = .error ⟨400, "CFD is already finalized"⟩ ∧
    (400 : ℕ) ≠ 409 := by
  exact ⟨rfl, by norm_num⟩

/-- C6 amended: finalization is one-way and immutable, but the finalized-CFD error is
an HTTP 400 (not the 409 conflict kind): `update_exam_grade` on a finalized CFD fails
with status 400 and detail "CFD is already finalized" and leaves the row unchanged;
the dashboard refresh returns a finalized CFD exactly as stored without writing; and a
successful `create_cfs_snapshot` marks every contributing CFD finalized. -/
theorem C6_finalization_immutable_amended :
    (∀ (cfd : CfdRow) (raw : ℤ), cfd.is_finalized = true →
      updateExamGrade cfd raw = .error ⟨400, "CFD is already finalized"⟩ ∧
        updateExamGradeStored cfd raw = cfd) ∧
    (∀ (e computed : CfdRow), e.is_finalized = true →
      dashboardPersistCfd (some e) computed = (e, false)) ∧
    (∀ (s : SettingsRow) (y : ℤ) (cfds : List CfdRow) (v : ℚ),
      s.graduation_cohort_year = some y →
      createCfsSnapshot (some s) cfds (some v) =
        .ok (if 2025 ≤ y then "weighted_mean" else "simple_mean")
          (snapshotFinalizeCfds cfds)) ∧
    (∀ (cfds : List CfdRow), ∀ c ∈ snapshotFinalizeCfds cfds, c.is_finalized = true) := by
  refine ⟨?_, ?_, ?_, ?_⟩
  · intro cfd raw hfin
    constructor
    · unfold updateExamGrade
      rw [if_pos hfin]
    · unfold updateExamGradeStored updateExamGrade
      rw [if_pos hfin]
  · intro e computed hfin
    simp [dashboardPersistCfd, hfin]
  · intro s y cfds v hy
    unfold createCfsSnapshot
    simp [hy]
  · intro cfds c hc
    obtain ⟨c', _, rfl⟩ := List.mem_map.mp hc
    rfl

/-- Witness for C6's amended theorem at a concrete finalized CFD. -/
theorem C6_finalization_immutable_amended_witness :
    updateExamGrade ⟨14, none, none, true⟩ 160 = .error ⟨400, "CFD is already finalized"⟩ ∧
      updateExamGradeStored ⟨14, none, none, true⟩ 160 = ⟨14, none, none, true⟩ :=
  C6_finalization_immutable_amended.1 ⟨14, none, none, true⟩ 160 rfl

/-- An incoming evaluation element (`EvaluationElementIn`) for the bulk replace. -/
structure ElementIn where
  weight_percentage : ℚ
  raw_grade : Option ℚ
deriving DecidableEq

/-- Embeds the validate-then-write flow of `replace_elements`: weights must sum to
exactly 100 before the old rows are deleted and the new ones inserted (the `detail`
interpolates the offending sum; modelled by its static prefix). -/
def replaceElements (newElements : List ElementIn) :
    Except HttpError (List EvalElement) :=
  let weight_sum : ℚ := (newElements.map (fun e => e.weight_percentage)).sum
  if weight_sum ≠ 100 then
    .error ⟨400, "Element weights must sum to 100"⟩
  else
    .ok (newElements.map (fun e => ⟨e.weight_percentage, e.raw_grade⟩))

/-- The stored elements of the period after `replace_elements`: the delete+insert only
happen after validation passes, so an error leaves the stored list untouched. -/
def replaceElementsStored (stored : List EvalElement) (newElements : List ElementIn) :
    List EvalElement :=
  match replaceElements newElements with
  | .ok xs => xs
  | .error _ => stored

/-- Embeds the validation sequence at the top of `create_settings`: weight sum exactly
100, then regime arity (semestral = 2 weights, trimestral = 3), then the
already-exists conflict; all before any row is created. -/
def createSettingsValidate (period_weights : List ℚ) (regime : Option String)
    (existing : Bool) : Except HttpError Unit :=
  let weight_sum : ℚ := period_weights.sum
  if weight_sum ≠ 100 then
    .error ⟨400, "Period weights must sum to 100"⟩
  else
    let num_periods := period_weights.length
    if regime = some "semestral" ∧ num_periods ≠ 2 then
      .error ⟨400, "Semestral regime requires 2 weights"⟩
    else if regime = some "trimestral" ∧ num_periods ≠ 3 then
      .error ⟨400, "Trimestral regime requires 3 weights"⟩
    else if existing then
      .error ⟨409, "Settings already exist for this year"⟩
    else
      .ok ()

/-- C7: element replacement and settings creation reject any weight list not summing
to exactly 100 with a 400 validation error, before persistence — the stored elements
survive unchanged — while a sum of exactly 100 succeeds; settings creation also rejects
a semestral regime without exactly 2 weights and a trimestral regime without exactly 3.
Sums of 99 and 101 fail concretely, 100 succeeds. -/
theorem C7_weight_sum_validation :
    (∀ (stored : List EvalElement) (newElements : List ElementIn),
      (newElements.map (fun e => e.weight_percentage)).sum ≠ 100 →
      replaceElements newElements = .error ⟨400, "Element weights must sum to 100"⟩ ∧
        replaceElementsStored stored newElements = stored) ∧
    (∀ (newElements : List ElementIn),
      (newElements.map (fun e => e.weight_percentage)).sum = 100 →
      replaceElements newElements =
        .ok (newElements.map (fun e => ⟨e.weight_percentage, e.raw_grade⟩))) ∧
    (∀ (weights : List ℚ) (regime : Option String) (existing : Bool),
      weights.sum ≠ 100 →
      createSettingsValidate weights regime existing =
        .error ⟨400, "Period weights must sum to 100"⟩) ∧
    (∀ (weights : List ℚ) (existing : Bool),
      weights.sum = 100 → weights.length ≠ 2 →
      createSettingsValidate weights (some "semestral") existing =
        .error ⟨400, "Semestral regime requires 2 weights"⟩) ∧
    (∀ (weights : List ℚ) (existing : Bool),
      weights.sum = 100 → weights.length ≠ 3 →
      createSettingsValidate weights (some "trimestral") existing =
        .error ⟨400, "Trimestral regime requires 3 weights"⟩) ∧
    replaceElements [⟨49, none⟩, ⟨50, none⟩] =
      .error ⟨400, "Element weights must sum to 100"⟩ ∧
    replaceElements [⟨51, none⟩, ⟨50, none⟩] =
      .error ⟨400, "Element weights must sum to 100"⟩ ∧
    replaceElements [⟨60, some 12⟩, ⟨40, none⟩] =
      .ok [⟨60, some 12⟩, ⟨40, none⟩] := by
  refine ⟨?_, ?_, ?_, ?_, ?_, ?_, ?_, ?_⟩
  · intro stored newElements hsum
    constructor
    · unfold replaceElements
      rw [if_pos hsum]
    · unfold replaceElementsStored replaceElements
      rw [if_pos hsum]
  · intro newElements hsum
    unfold replaceElements
    rw [if_neg (by rw [hsum]; norm_num)]
  · intro weights regime existing hsum
    unfold createSettingsValidate
    rw [if_pos hsum]
  · intro weights existing hsum hlen
    unfold createSettingsValidate
    rw [if_neg (by rw [hsum]; norm_num), if_pos ⟨rfl, hlen⟩]
  · intro weights existing hsum hlen
    unfold createSettingsValidate
    rw [if_neg (by rw [hsum]; norm_num), if_neg (by simp), if_pos ⟨rfl, hlen⟩]
  · unfold replaceElements
    norm_num
  · unfold replaceElements
    norm_num
  · unfold replaceElements
    norm_num

/-- Witness for C7: replacing with weights summing to 99 fails and keeps the stored
elements. -/
theorem C7_weight_sum_validation_witness :
    replaceElements [⟨49, none⟩, ⟨50, none⟩] =
        .error ⟨400, "Element weights must sum to 100"⟩ ∧
      replaceElementsStored [⟨100, some 15⟩] [⟨49, none⟩, ⟨50, none⟩] =
        [⟨100, some 15⟩] :=
  C7_weight_sum_validation.1 [⟨100, some 15⟩] [⟨49, none⟩, ⟨50, none⟩] (by norm_num)

/-- C10: `create_cfs_snapshot` is not total on reachable inputs — with a settings row
whose `graduation_cohort_year` is NULL, `_compute_cfs_value` itself succeeds (its
null-cohort guard picks the simple mean), so the 400 guard passes and the unguarded
`cohort_year >= 2025` comparison on the present-but-null value raises an uncaught
`TypeError`, not an error of the service's HTTP taxonomy. -/
theorem C10_snapshot_null_cohort_type_error :
    ∀ (cfds : List CfsCfd) (rows : List CfdRow),
      cfds.filter (fun c => c.affects_cfs) ≠ [] →
      (computeCfsValue cfds none).1.isSome = true ∧
      createCfsSnapshot (some ⟨none⟩) rows (computeCfsValue cfds none).1 = .typeError := by
  intro cfds rows hne
  have hempty : (cfds.filter (fun c => c.affects_cfs)).isEmpty = false := by
    cases h : (cfds.filter (fun c => c.affects_cfs)).isEmpty with
    | false => rfl
    | true => exact absurd (List.isEmpty_iff.mp h) hne
  have h1 : (computeCfsValue cfds none).1 =
      some (truncateOneDecimal
        (((cfds.filter (fun c => c.affects_cfs)).map (fun c => (c.cfd_grade : ℚ))).sum /
          ((cfds.filter (fun c => c.affects_cfs)).length : ℚ))) := by
    simp [computeCfsValue, hempty]
  rw [h1]
  exact ⟨rfl, rfl⟩

/-- Witness for C10 at a single one-year CFD that affects the CFS. -/
theorem C10_snapshot_null_cohort_type_error_witness :
    (computeCfsValue [⟨14, 1, true⟩] none).1.isSome = true ∧
      createCfsSnapshot (some ⟨none⟩) [] (computeCfsValue [⟨14, 1, true⟩] none).1 =
        .typeError :=
  C10_snapshot_null_cohort_type_error [⟨14, 1, true⟩] [] (by decide)

/-! Quiz answer grading (`assignments_service.py`).  Submitted answers are modelled by
the typed shapes the frontend sends; `_to_string` of a structured value produces a
bracketed Python repr that can never equal an option id, modelled as no string. -/

inductive AnswerVal where
  | text (s : String)
  | boolean (b : Bool)
  | ids (xs : List String)
  | pairs (ps : List (String × String))
  | blankSel (m : List (String × String))
deriving DecidableEq

/-- Embeds `_is_nonempty_answer`: missing answers, blank text and empty collections are
empty; every other value (including `False`) counts as answered. -/
def isNonemptyAnswer : Option AnswerVal → Bool
  | none => false
  | some (.text s) => !s.trim.isEmpty
  | some (.boolean _) => true
  | some (.ids xs) => !xs.isEmpty
  | some (.pairs ps) => !ps.isEmpty
  | some (.blankSel m) => !m.isEmpty

/-- Embeds `_to_string` on a submitted scalar (used by multiple_choice and
short_answer): text passes through, booleans print as Python booleans do. -/
def answerToStr : Option AnswerVal → Option String
  | some (.text s) => some s
  | some (.boolean b) => some (if b then "True" else "False")
  | _ => none

/-- Embeds `_to_bool` on a submitted value. -/
def answerToBool : Option AnswerVal → Option Bool
  | some (.boolean b) => some b
  | some (.text s) =>
    let raw := s.trim.toLower
    if raw = "true" ∨ raw = "1" ∨ raw = "yes" then some true
    else if raw = "false" ∨ raw = "0" ∨ raw = "no" then some false
    else none
  | _ => none

/-- Embeds `_normalize_id_list` without `preserve_order`: falsy entries dropped,
deduplicated, sorted (Python `sorted(set(...))`). -/
def normalizeIdList (xs : List String) : List String :=
  ((xs.filter (fun s => !s.isEmpty)).dedup).mergeSort (fun a b => a ≤ b)

/-- Embeds `_normalize_id_list` with `preserve_order=True` on a submitted value:
a list keeps its order with falsy entries dropped; non-list shapes yield no ids. -/
def answerIdsOrdered : Option AnswerVal → List String
  | some (.ids xs) => xs.filter (fun s => !s.isEmpty)
  | _ => []

/-- The unordered variant applied to a submitted value. -/
def answerIdsUnordered : Option AnswerVal → List String
  | some (.ids xs) => normalizeIdList xs
  | _ => []

/-- Embeds `_normalize_pairs`: keep only pairs with two truthy sides; the Python result
is a set, modelled as a list compared by mutual membership. -/
def normalizePairs (ps : List (String × String)) : List (String × String) :=
  ps.filter (fun p => !p.1.isEmpty && !p.2.isEmpty)

def answerPairs : Option AnswerVal → List (String × String)
  | some (.pairs ps) => ps
  | _ => []

/-- Set equality of two pair lists (Python `set == set`). -/
def pairSetEq (a b : List (String × String)) : Bool :=
  a.all (fun p => decide (p ∈ b)) && b.all (fun p => decide (p ∈ a))

/-- A Python dict built by sequential assignment, read back: the last value written for
a key wins. -/
def assocLast (ps : List (String × String)) (k : String) : Option String :=
  ps.foldl (fun acc kv => if kv.1 = k then some kv.2 else acc) none

/-- The selected blank map of a fill_blank submission (falsy ids or selections are
skipped while the map is built). -/
def answerBlanks : Option AnswerVal → List (String × String)
  | some (.blankSel m) => m.filter (fun kv => !kv.1.isEmpty && !kv.2.isEmpty)
  | _ => []

/-- A question's content after `_normalize_question_for_grading`, one variant per
question type with the fields `_grade_question` reads (true_false's correct answer is
shown after its `_to_bool` coercion). -/
inductive QuestionContent where
  | multipleChoice (correct_answer : Option String)
  | trueFalse (correct_answer : Option Bool)
  | fillBlank (blanks : List (String × String))
  | matching (correct_pairs : List (String × String))
  | shortAnswer (correct_answers : List String) (case_sensitive : Bool)
  | multipleResponse (correct_answers : List String)
  | ordering (correct_order : List String)
  | openExtended
  | contextGroup
deriving DecidableEq

/-- Embeds `_grade_question`: `none` is the "ungraded" verdict — returned whenever the
question's correct-answer definition is missing or empty, and for the open_extended
and context_group types, which no branch of the dispatcher handles. -/
def gradeQuestion (content : QuestionContent) (answer : Option AnswerVal) : Option Bool :=
  match content with
  | .multipleChoice correct_answer =>
    match correct_answer with
    | none => none
    | some c => if c.isEmpty then none else some (decide (answerToStr answer = some c))
  | .trueFalse correct_answer =>
    match correct_answer with
    | none => none
    | some c => some (decide (answerToBool answer = some c))
  | .fillBlank blanks =>
    if blanks.isEmpty then none
    else
      let correct := blanks.filter (fun bc => !bc.1.isEmpty && !bc.2.isEmpty)
      if correct.isEmpty then none
      else
        let selected := answerBlanks answer
        some ((correct.map (fun bc => bc.1)).dedup.all
          (fun b => decide (assocLast selected b = assocLast correct b)))
  | .matching correct_pairs =>
    let correct := normalizePairs correct_pairs
    if correct.isEmpty then none
    else some (pairSetEq (normalizePairs (answerPairs answer)) correct)
  | .shortAnswer correct_answers case_sensitive =>
    if correct_answers.isEmpty then none
    else
      let selected0 := ((answerToStr answer).getD "").trim
      let selected := if case_sensitive then selected0 else selected0.toLower
      let normalized := (correct_answers.filter (fun a => !a.trim.isEmpty)).map
        (fun a => if case_sensitive then a.trim else a.trim.toLower)
      some (decide (selected ∈ normalized))
  | .multipleResponse correct_answers =>
    let correct := normalizeIdList correct_answers
    if correct.isEmpty then none
    else some (decide (answerIdsUnordered answer = correct))
  | .ordering correct_order =>
    let correct := correct_order.filter (fun s => !s.isEmpty)
    if correct.isEmpty then none
    else some (decide (answerIdsOrdered answer = correct))
  | .openExtended => none
  | .contextGroup => none

/-- A normalized question as iterated by `_grade_quiz_attempt`. -/
structure QuizQuestion where
  id : Option String
  content : QuestionContent
deriving DecidableEq

/-- One entry of the per-question breakdown. -/
structure QuestionResult where
  question_id : String
  is_correct : Bool
  answered : Bool
deriving DecidableEq

/-- The running counters of the attempt loop. -/
structure AttemptState where
  total : ℕ
  correct : ℕ
  answered : ℕ
  results : List QuestionResult
deriving DecidableEq

/-- Embeds `answers.get(question_id)` on the extracted answers dict. -/
def answersGet (answers : List (String × AnswerVal)) (k : String) : Option AnswerVal :=
  answers.foldl (fun acc kv => if kv.1 = k then some kv.2 else acc) none

/-- One iteration of the `_grade_quiz_attempt` loop: questions without a truthy id are
skipped entirely; the answered counter moves with `_is_nonempty_answer`; an ungraded
verdict contributes nothing further, a definite verdict is counted and recorded. -/
def attemptStep (answers : List (String × AnswerVal)) (st : AttemptState)
    (q : QuizQuestion) : AttemptState :=
  match q.id with
  | none => st
  | some qid =>
    if qid.isEmpty then st
    else
      let answer := answersGet answers qid
      let st1 := if isNonemptyAnswer answer then { st with answered := st.answered + 1 }
        else st
      match gradeQuestion q.content answer with
      | none => st1
      | some ic =>
        { st1 with
            total := st1.total + 1,
            correct := if ic then st1.correct + 1 else st1.correct,
            results := st1.results ++ [⟨qid, ic, isNonemptyAnswer answer⟩] }

/-- Embeds `_grade_quiz_attempt`: iterate the normalized questions, then
`score = round(correct / total × 100, 2)`; an empty question list or zero gradable
questions yield no score at all. -/
def gradeQuizAttempt (questions : List QuizQuestion)
    (answers : List (String × AnswerVal)) : Option ℚ × Option AttemptState :=
  if questions.isEmpty then (none, none)
  else
    let st := questions.foldl (attemptStep answers) ⟨0, 0, 0, []⟩
    if st.total = 0 then (none, none)
    else
      let score := pyRound2 ((st.correct : ℚ) / (st.total : ℚ) * 100)
      (some score, some { st with })

theorem attemptLoop_counts (answers : List (String × AnswerVal))
    (questions : List QuizQuestion)
    (hid : ∀ q ∈ questions, ∃ s, q.id = some s ∧ ¬s.isEmpty) :
    ∀ st : AttemptState,
      (questions.foldl (attemptStep answers) st).total =
        st.total + (questions.filterMap
          (fun q => gradeQuestion q.content (answersGet answers (q.id.getD "")))).length ∧
      (questions.foldl (attemptStep answers) st).correct =
        st.correct + (questions.filterMap
          (fun q => gradeQuestion q.content (answersGet answers (q.id.getD "")))).count true := by
  induction questions with
  | nil => intro st; simp
  | cons q qs ih =>
    intro st
    obtain ⟨s, hqid, hsne⟩ := hid q (List.mem_cons_self q qs)
    have hih := ih (fun q hq => hid q (List.mem_cons_of_mem _ hq))
    rw [List.foldl_cons, List.filterMap_cons]
    have hstep : ∀ st' : AttemptState,
        (attemptStep answers st' q).total =
          st'.total + (match gradeQuestion q.content (answersGet answers s) with
            | none => 0 | some _ => 1) ∧
        (attemptStep answers st' q).correct =
          st'.correct + (match gradeQuestion q.content (answersGet answers s) with
            | some true => 1 | _ => 0) := by
      intro st'
      unfold attemptStep
      rw [hqid]
      simp only [hsne, if_false, Bool.false_eq_true]
      cases hg : gradeQuestion q.content (answersGet answers s) with
      | none => cases hb : isNonemptyAnswer (answersGet answers s) <;> simp [hb]
      | some ic =>
        cases ic <;> cases hb : isNonemptyAnswer (answersGet answers s) <;> simp [hb]
    rw [hqid]
    simp only [Option.getD_some]
    cases hg : gradeQuestion q.content (answersGet answers s) with
    | none =>
      obtain ⟨ht, hc⟩ := hih (attemptStep answers st q)
      obtain ⟨ht', hc'⟩ := hstep st
      rw [hg] at ht' hc'
      constructor
      · rw [ht, ht']
        simp
      · rw [hc, hc']
        simp
    | some ic =>
      obtain ⟨ht, hc⟩ := hih (attemptStep answers st q)
      obtain ⟨ht', hc'⟩ := hstep st
      rw [hg] at ht' hc'
      constructor
      · rw [ht, ht']
        simp
        omega
      · rw [hc, hc']
        cases ic <;> simp [List.count_cons] <;> omega

/-- C9: with valid question ids, the attempt pass counts exactly the questions whose
grader returns a definite verdict (open_extended, context_group and missing
correct-answer definitions are skipped), scores
`round(correct / total × 100, 2)`, and yields no score when nothing is gradable;
ordering submissions are compared order-sensitively, so [A,C,B] is correct,
the permutation [C,A,B] is incorrect, and an empty submission is an incorrect,
unanswered — but still graded — result. -/
theorem C9_quiz_grading :
    (∀ (questions : List QuizQuestion) (answers : List (String × AnswerVal)),
      (∀ q ∈ questions, ∃ s, q.id = some s ∧ ¬s.isEmpty) →
      (gradeQuizAttempt questions answers).1 =
        (if (questions.filterMap
            (fun q => gradeQuestion q.content (answersGet answers (q.id.getD "")))) = []
          then none
          else some (pyRound2
            (((questions.filterMap
                (fun q => gradeQuestion q.content
                  (answersGet answers (q.id.getD "")))).count true : ℚ) /
              ((questions.filterMap
                (fun q => gradeQuestion q.content
                  (answersGet answers (q.id.getD "")))).length : ℚ) * 100)))) ∧
    (∀ a : Option AnswerVal,
      gradeQuestion .openExtended a = none ∧
      gradeQuestion .contextGroup a = none ∧
      gradeQuestion (.ordering []) a = none ∧
      gradeQuestion (.multipleChoice none) a = none) ∧
    gradeQuestion (.ordering ["A", "C", "B"]) (some (.ids ["A", "C", "B"])) = some true ∧
    gradeQuestion (.ordering ["A", "C", "B"]) (some (.ids ["C", "A", "B"])) = some false ∧
    gradeQuestion (.ordering ["A", "C", "B"]) (some (.ids [])) = some false ∧
    isNonemptyAnswer (some (.ids [])) = false ∧
    gradeQuizAttempt [⟨some "q1", .ordering ["A", "C", "B"]⟩] [] =
      (some 0, some ⟨1, 0, 0, [⟨"q1", false, false⟩]⟩) := by
  refine ⟨?_, ?_, by decide, by decide, by decide, by decide, ?_⟩
  · intro questions answers hid
    unfold gradeQuizAttempt
    by_cases hq : questions.isEmpty
    · have : questions = [] := List.isEmpty_iff.mp hq
      subst this
      simp
    · rw [if_neg hq]
      obtain ⟨ht, hc⟩ := attemptLoop_counts answers questions hid ⟨0, 0, 0, []⟩
      simp only [ht, hc, Nat.zero_add]
      by_cases hnil : (questions.filterMap
          (fun q => gradeQuestion q.content (answersGet answers (q.id.getD "")))) = []
      · rw [if_pos hnil, if_pos (by rw [hnil]; rfl)]
      · rw [if_neg hnil,
          if_neg (by simpa [List.length_eq_zero] using hnil)]
  · intro a
    refine ⟨rfl, rfl, rfl, rfl⟩
  · have h1 : ([⟨some "q1", .ordering ["A", "C", "B"]⟩] : List QuizQuestion).foldl
        (attemptStep []) ⟨0, 0, 0, []⟩ = ⟨1, 0, 0, [⟨"q1", false, false⟩]⟩ := by decide
    unfold gradeQuizAttempt
    rw [if_neg (by decide), h1]
    norm_num [pyRound2, pyRoundEven]

/-- Witness for C9: one gradable ordering question with a permuted submission scores
0.0. -/
theorem C9_quiz_grading_witness :
    (gradeQuizAttempt [⟨some "q1", .ordering ["A", "C", "B"]⟩]
        [("q1", .ids ["C", "A", "B"])]).1 =
      (if (([⟨some "q1", .ordering ["A", "C", "B"]⟩] : List QuizQuestion).filterMap
          (fun q => gradeQuestion q.content
            (answersGet [("q1", .ids ["C", "A", "B"])] (q.id.getD "")))) = []
        then none
        else some (pyRound2
          (((([⟨some "q1", .ordering ["A", "C", "B"]⟩] : List QuizQuestion).filterMap
              (fun q => gradeQuestion q.content
                (answersGet [("q1", .ids ["C", "A", "B"])] (q.id.getD "")))).count true : ℚ) /
            ((([⟨some "q1", .ordering ["A", "C", "B"]⟩] : List QuizQuestion).filterMap
              (fun q => gradeQuestion q.content
                (answersGet [("q1", .ids ["C", "A", "B"])] (q.id.getD "")))).length : ℚ) *
            100))) :=
  C9_quiz_grading.1 [⟨some "q1", .ordering ["A", "C", "B"]⟩]
    [("q1", .ids ["C", "A", "B"])] (by decide)

end Lusia
